import Mathlib

/-!
Shallow embedding of the juni-agent adverse-media compliance pipeline
(src/config.py, src/utils.py, src/name_matcher.py, src/decision_engine.py,
src/compliance_agent.py, src/models.py) and verification of the frozen
claims about it.

Python floats are modelled by exact rationals; Python exceptions by
Option (Option.none = the computation raised).  External collaborators
(the dateutil date parser, the current date, and the regex-based
normalize_name) are passed in as an explicit environment so that the
theorems hold for every behaviour of these externals.
-/

namespace JuniAgent

/-! ### Python string primitives -/

/-- ASCII lower-casing of a character, as used by Python str.lower()
on the ASCII names appearing in this code base. -/
def asciiLower (c : Char) : Char :=
  if 'A' ≤ c ∧ c ≤ 'Z' then Char.ofNat (c.toNat + 32) else c

/-- ASCII upper-casing of a character (Python str.upper() on ASCII). -/
def asciiUpper (c : Char) : Char :=
  if 'a' ≤ c ∧ c ≤ 'z' then Char.ofNat (c.toNat - 32) else c

/-- Python str.lower() (ASCII fragment). -/
def pyLower (s : String) : String := ⟨s.data.map asciiLower⟩

/-- Python str.upper() (ASCII fragment). -/
def pyUpper (s : String) : String := ⟨s.data.map asciiUpper⟩

/-- Does the second character list start with the first one? -/
def charsStartWith : List Char → List Char → Bool
  | [], _ => true
  | _ :: _, [] => false
  | a :: as, b :: bs => a == b && charsStartWith as bs

/-- Does the first list contain the second as a contiguous sublist? -/
def charsContain : List Char → List Char → Bool
  | [], n => n.isEmpty
  | h@(_ :: t), n => charsStartWith n h || charsContain t n

/-- Python's substring test `needle in haystack`. -/
def pyIn (needle haystack : String) : Bool :=
  charsContain haystack.data needle.data

/-- Python str.strip() (no argument: strip whitespace on both ends). -/
def pyStrip (s : String) : String :=
  ⟨((s.data.dropWhile Char.isWhitespace).reverse.dropWhile Char.isWhitespace).reverse⟩

/-- Helper for whitespace splitting: accumulates the current token
(in reverse) and emits completed tokens. -/
def wsTokensAux : List Char → List Char → List (List Char)
  | [], acc => if acc.isEmpty then [] else [acc.reverse]
  | c :: cs, acc =>
    if c.isWhitespace then
      if acc.isEmpty then wsTokensAux cs [] else acc.reverse :: wsTokensAux cs []
    else wsTokensAux cs (c :: acc)

/-- Python str.split() with no argument: split on runs of whitespace,
dropping empty tokens. -/
def pySplit (s : String) : List String :=
  (wsTokensAux s.data []).map (fun l => ⟨l⟩)

/-- Value of a nonempty all-digit character list. -/
def digitsVal (l : List Char) : Option Nat :=
  if l.isEmpty then Option.none
  else if l.all Char.isDigit then
    some (l.foldl (fun n c => n * 10 + (c.toNat - 48)) 0)
  else Option.none

/-- Python int(str) on decimal strings: strips whitespace, allows an
optional sign, then decimal digits; Option.none models ValueError.
(Python additionally accepts underscore digit separators and non-ASCII
digits; no claim depends on those inputs.) -/
def pyParseInt (s : String) : Option Int :=
  match (pyStrip s).data with
  | '-' :: rest => (digitsVal rest).map (fun n => -(n : Int))
  | '+' :: rest => (digitsVal rest).map (fun n => (n : Int))
  | l => (digitsVal l).map (fun n => (n : Int))

/-- Python int() applied to a float/rational: truncation toward zero. -/
def pyInt (q : ℚ) : Int :=
  if q < 0 then -⌊-q⌋ else ⌊q⌋

/-- Python "%.2f"-style formatting of a rational with two decimals,
as produced by the f-string `{confidence:.2f}` (ties rounded up here;
Python rounds ties to even, which no claim exercises). -/
def fmt2 (q : ℚ) : String :=
  let cents : Int := ⌊q * 100 + 1/2⌋
  let sign := if cents < 0 then "-" else ""
  let n := cents.natAbs
  sign ++ toString (n / 100) ++ "." ++ (if n % 100 < 10 then "0" else "") ++ toString (n % 100)

/-- Python list subscript `l[i]`: negative indices count from the end;
Option.none models IndexError. -/
def pyGetItem {α : Type} (l : List α) (i : Int) : Option α :=
  if i < 0 then
    let j := i + l.length
    if j < 0 then Option.none else l.get? j.toNat
  else l.get? i.toNat

/-! ### Data model (src/models.py) -/

inductive LinkageDecision where
  | yes
  | maybe
  | no
deriving DecidableEq, Repr

def LinkageDecision.value : LinkageDecision → String
  | .yes => "yes"
  | .maybe => "maybe"
  | .no => "no"

inductive OutcomeType where
  | allegation
  | investigation
  | charged
  | convicted
  | acquitted
  | settled
  | regulator_order
  | none
deriving DecidableEq, Repr

def OutcomeType.value : OutcomeType → String
  | .allegation => "allegation"
  | .investigation => "investigation"
  | .charged => "charged"
  | .convicted => "convicted"
  | .acquitted => "acquitted"
  | .settled => "settled"
  | .regulator_order => "regulator_order"
  | .none => "none"

inductive CategoryType where
  | corruption
  | fraud
  | money_laundering
  | terrorist_financing
  | trafficking
  | sanctions_evasion
  | violence
  | regulatory
  | civil
  | none
deriving DecidableEq, Repr

def CategoryType.value : CategoryType → String
  | .corruption => "corruption"
  | .fraud => "fraud"
  | .money_laundering => "money_laundering"
  | .terrorist_financing => "terrorist_financing"
  | .trafficking => "trafficking"
  | .sanctions_evasion => "sanctions_evasion"
  | .violence => "violence"
  | .regulatory => "regulatory"
  | .civil => "civil"
  | .none => "none"

inductive HitType where
  | adverse_media
  | pep
  | watchlist
  | sanctions
deriving DecidableEq, Repr

structure UserProfile where
  full_name : String
  date_of_birth : Option String := Option.none
  city : Option String := Option.none
  employer : Option String := Option.none
  id_data : Option (List (String × String)) := Option.none
  aliases : List String := []
deriving DecidableEq, Repr

structure MediaHit where
  title : String
  snippet : Option String := Option.none
  full_text : Option String := Option.none
  date : String
  source : String
  url : Option String := Option.none
  hit_type : HitType := .adverse_media
deriving DecidableEq, Repr

structure IdentityAnchor where
  anchor_type : String
  value : String
  confidence : ℚ
  source_text : String
deriving DecidableEq, Repr

structure AnchorVerification where
  anchor : IdentityAnchor
  «matches» : Bool
  conflict : Bool
  rationale : String
deriving DecidableEq, Repr

structure ArticleAnalysis where
  hit : MediaHit
  brief_summary : String
  anchors : List IdentityAnchor
  anchor_verifications : List AnchorVerification
  contradictions : List String
  linkage_decision : LinkageDecision
  outcome_type : OutcomeType
  category_type : CategoryType
  credibility_note : String
  recency_note : String
  rationale : String
deriving DecidableEq, Repr

/-! ### External environment

The date parser (src/utils.py parse_date wraps the third-party dateutil
parser), the current date (datetime.date.today()) and the regex-based
normalize_name (src/utils.py, built on the re module) are externals; the
theorems quantify over all of their behaviours. -/

structure PyDate where
  year : Int
  month : Nat
  day : Nat
deriving DecidableEq, Repr

structure PyEnv where
  parseDate : String → Option PyDate
  today : PyDate
  normalizeName : String → String

/-! ### Configuration (src/config.py) -/

def COMMON_NAMES : List String :=
  ["smith", "johnson", "williams", "brown", "jones", "garcia", "miller",
   "davis", "rodriguez", "martinez", "hernandez", "lopez", "gonzalez",
   "wilson", "anderson", "thomas", "taylor", "moore", "jackson", "martin",
   "lee", "perez", "thompson", "white", "harris", "sanchez", "clark",
   "ramirez", "lewis", "robinson", "walker", "young", "allen", "king",
   "wright", "scott", "torres", "nguyen", "hill", "flores", "green",
   "adams", "nelson", "baker", "hall", "rivera", "campbell", "mitchell"]

def COMMON_NAMES_THRESHOLD : Nat := 2
def RARE_NAMES_THRESHOLD : Nat := 1

/-- Config.is_common_name: `name.split()[-1].lower() if name else ""`,
then membership in COMMON_NAMES.  Option.none models the IndexError
raised when `name` is non-empty but `name.split()` is empty
(whitespace-only name). -/
def is_common_name (name : String) : Option Bool :=
  if name == "" then some (COMMON_NAMES.contains "")
  else
    match (pySplit name).getLast? with
    | Option.none => Option.none
    | some t => some (COMMON_NAMES.contains (pyLower t))

/-! ### Utilities (src/utils.py) -/

/-- utils.calculate_age: age in whole years of `birth` at `reference`
(the article date; Python falls back to date.today() when the reference
string is falsy).  Option.none models an unparseable birth/reference
date. -/
def calculate_age (env : PyEnv) (birth reference : String) : Option Int :=
  match env.parseDate birth with
  | Option.none => Option.none
  | some b =>
    let refDt := if reference == "" then some env.today else env.parseDate reference
    match refDt with
    | Option.none => Option.none
    | some r =>
      some (r.year - b.year -
        (if r.month < b.month ∨ (r.month = b.month ∧ r.day < b.day) then 1 else 0))

/-! ### Name matcher (src/name_matcher.py) -/

/-- Parsed response of the name-match oracle (_ai_name_match's returned
dict; on oracle failure the fallback fills the same four fields, so a
single structure covers both). -/
structure NameOracleResult where
  is_match : Bool
  confidence : ℚ
  matched_name : String
  reasoning : String
deriving DecidableEq, Repr

/-- NameMatcher.analyze_name_match, parameterised by the oracle result.
Returns (has_name_match, name_analysis, required_anchors);
Option.none models the uncaught IndexError propagating out of
Config.is_common_name. -/
def analyze_name_match (oracle : NameOracleResult) (profile : UserProfile)
    (anchors : List IdentityAnchor) : Option (Bool × String × Nat) :=
  let name_anchors := anchors.filter (fun a => a.anchor_type == "name")
  if name_anchors.isEmpty then
    some (false, "No name mentions found in article", 0)
  else
    let has_name_match := oracle.is_match || decide (oracle.confidence ≥ 7/10)
    if !has_name_match then
      some (false, "No name match: " ++ oracle.reasoning, 0)
    else
      match is_common_name profile.full_name with
      | Option.none => Option.none
      | some is_common =>
        let required_anchors := if is_common then COMMON_NAMES_THRESHOLD else RARE_NAMES_THRESHOLD
        some (true,
          (if is_common then "common" else "rare") ++ " name, needs ≥" ++
            toString required_anchors ++ " anchors",
          required_anchors)

/-! ### Decision engine: rule-based anchor verifiers
(src/decision_engine.py, _verify_name … _verify_id).
Each returns (matches, conflict, rationale). -/

def verify_name (env : PyEnv) (profile : UserProfile) (anchor_value : String) :
    Bool × Bool × String :=
  let user_names := profile.full_name :: profile.aliases
  if user_names.any (fun user_name =>
      let norm_user := env.normalizeName user_name
      let norm_anchor := env.normalizeName anchor_value
      pyIn norm_anchor norm_user || pyIn norm_user norm_anchor) then
    (true, false, "name matches: \x27" ++ anchor_value ++ "\x27 found in user names")
  else
    (false, false, "name \x27" ++ anchor_value ++ "\x27 not found in user profile")

def verify_employer (profile : UserProfile) (anchor_value : String) :
    Bool × Bool × String :=
  match profile.employer with
  | Option.none => (false, false, "employer: not stated in profile")
  | some emp =>
    if emp == "" then (false, false, "employer: not stated in profile")
    else
      let user_employer := pyLower emp
      let anchor_employer := pyLower anchor_value
      if pyIn anchor_employer user_employer || pyIn user_employer anchor_employer then
        (true, false, "employer: matches (" ++ anchor_value ++ ")")
      else
        (false, true, "employer: conflict (profile: " ++ emp ++ " vs article: " ++ anchor_value ++ ")")

def verify_city (profile : UserProfile) (anchor_value : String) :
    Bool × Bool × String :=
  match profile.city with
  | Option.none => (false, false, "city: not stated in profile")
  | some c =>
    if c == "" then (false, false, "city: not stated in profile")
    else
      let user_city := pyLower c
      let anchor_city := pyLower anchor_value
      if pyIn anchor_city user_city || pyIn user_city anchor_city then
        (true, false, "city: matches (" ++ anchor_value ++ ")")
      else
        (false, true, "city: conflict (profile: " ++ c ++ " vs article: " ++ anchor_value ++ ")")

def verify_dob (env : PyEnv) (profile : UserProfile) (anchor_value : String) :
    Bool × Bool × String :=
  match profile.date_of_birth with
  | Option.none => (false, false, "dob: not stated in profile")
  | some dob =>
    if dob == "" then (false, false, "dob: not stated in profile")
    else
      let user_dob := env.parseDate dob
      let anchor_dob := env.parseDate anchor_value
      if anchor_dob.isNone then
        (false, false, "dob: could not parse \x27" ++ anchor_value ++ "\x27")
      else if user_dob = anchor_dob then
        (true, false, "dob: matches (" ++ anchor_value ++ ")")
      else
        (false, true, "dob: conflict (profile: " ++ dob ++ " vs article: " ++ anchor_value ++ ")")

def verify_age (env : PyEnv) (profile : UserProfile) (anchor_value article_date : String) :
    Bool × Bool × String :=
  match profile.date_of_birth with
  | Option.none => (false, false, "age: cannot verify, no DOB in profile")
  | some dob =>
    if dob == "" then (false, false, "age: cannot verify, no DOB in profile")
    else
      match pyParseInt anchor_value with
      | Option.none => (false, false, "age: could not parse \x27" ++ anchor_value ++ "\x27")
      | some article_age =>
        match calculate_age env dob article_date with
        | Option.none => (false, false, "age: could not calculate expected age")
        | some expected_age =>
          if (article_age - expected_age).natAbs ≤ 1 then
            (true, false, "age: matches (article: " ++ toString article_age ++
              ", expected: " ++ toString expected_age ++ ")")
          else
            (false, true, "age: conflict (article: " ++ toString article_age ++
              ", expected: " ++ toString expected_age ++ ")")

def verify_title (anchor_value : String) : Bool × Bool × String :=
  (false, false, "title: not verifiable (\x27" ++ anchor_value ++ "\x27 mentioned)")

def verify_id (profile : UserProfile) (anchor_value : String) :
    Bool × Bool × String :=
  match profile.id_data with
  | Option.none => (false, false, "id: not verifiable (\x27" ++ anchor_value ++ "\x27 mentioned)")
  | some entries =>
    if entries.isEmpty then
      (false, false, "id: not verifiable (\x27" ++ anchor_value ++ "\x27 mentioned)")
    else
      match entries.find? (fun e => pyIn anchor_value e.2 || pyIn e.2 anchor_value) with
      | some e => (true, false, "id: matches " ++ e.1)
      | Option.none => (false, false, "id: no match found for \x27" ++ anchor_value ++ "\x27")

/-- The rule-based branch of DecisionEngine._verify_single_anchor
(lines 53-83): lower-case the anchor type, strip the value, dispatch. -/
def rule_verify_anchor (env : PyEnv) (profile : UserProfile)
    (anchor : IdentityAnchor) (article_date : String) : AnchorVerification :=
  let anchor_type := pyLower anchor.anchor_type
  let anchor_value := pyStrip anchor.value
  let r :=
    if anchor_type == "name" then verify_name env profile anchor_value
    else if anchor_type == "employer" then verify_employer profile anchor_value
    else if anchor_type == "city" then verify_city profile anchor_value
    else if anchor_type == "dob" then verify_dob env profile anchor_value
    else if anchor_type == "age" then verify_age env profile anchor_value article_date
    else if anchor_type == "title" then verify_title anchor_value
    else if anchor_type == "id" then verify_id profile anchor_value
    else (false, false, "Unknown anchor type: " ++ anchor_type)
  ⟨anchor, r.1, r.2.1, r.2.2⟩

/-- Parsed per-anchor verdict of the verification oracle, with the
fields the code reads out of the JSON (matches, conflict, rationale,
confidence). -/
structure AIVerdict where
  «matches» : Bool
  conflict : Bool
  rationale : String
  confidence : ℚ
deriving DecidableEq, Repr

/-- The rationale formatting `f"AI: {rationale} (confidence: {c:.2f})"`
applied to every oracle verdict. -/
def ai_rationale (r : String) (c : ℚ) : String :=
  "AI: " ++ r ++ " (confidence: " ++ fmt2 c ++ ")"

/-- DecisionEngine._verify_single_anchor: use the per-anchor oracle
verdict when the oracle succeeded, otherwise the rule-based branch. -/
def verify_single_anchor (env : PyEnv) (ai : Option AIVerdict)
    (profile : UserProfile) (anchor : IdentityAnchor) (article_date : String) :
    AnchorVerification :=
  match ai with
  | some r => ⟨anchor, r.«matches», r.conflict, ai_rationale r.rationale r.confidence⟩
  | Option.none => rule_verify_anchor env profile anchor article_date

/-- DecisionEngine.verify_anchors after the batch oracle call failed:
one _verify_single_anchor call per anchor, in order (`oracle` gives the
per-anchor AI outcome, Option.none = that AI call failed too). -/
def verify_anchors_fallback (env : PyEnv) (oracle : IdentityAnchor → Option AIVerdict)
    (profile : UserProfile) (anchors : List IdentityAnchor) (article_date : String) :
    List AnchorVerification :=
  anchors.map (fun a => verify_single_anchor env (oracle a) profile a article_date)

/-- One entry of the batch oracle's "verifications" array, after the
code's dict.get defaulting (index defaults to 0, flags to False). -/
structure BatchItem where
  index : Int
  «matches» : Bool
  conflict : Bool
  rationale : String
  confidence : ℚ
deriving DecidableEq, Repr

def default_anchor : IdentityAnchor := ⟨"", "", 0, ""⟩

/-- The re-association loop of DecisionEngine._ai_verify_all_anchors
(lines 363-373): for each returned item, if `index < len(anchors)` the
item is attached to `anchors[index]` (Python subscript: negative
indices count from the end), else it is skipped; Option.none models the
IndexError (index < -len) escaping to the except-handler, which makes
the whole batch fail. -/
def reassociate (anchors : List IdentityAnchor) :
    List BatchItem → Option (List AnchorVerification)
  | [] => some []
  | b :: rest =>
    if b.index < (anchors.length : Int) then
      match pyGetItem anchors b.index with
      | Option.none => Option.none
      | some a =>
        (reassociate anchors rest).map
          (fun vs => (⟨a, b.«matches», b.conflict, ai_rationale b.rationale b.confidence⟩ :
            AnchorVerification) :: vs)
    else reassociate anchors rest

/-- DecisionEngine.detect_contradictions: the rationales of the
verifications flagged as conflicts. -/
def detect_contradictions (verifications : List AnchorVerification) : List String :=
  (verifications.filter (fun v => v.conflict)).map (fun v => v.rationale)

/-- DecisionEngine.make_linkage_decision (lines 187-222). -/
def make_linkage_decision (verifications : List AnchorVerification)
    (contradictions : List String) (required_anchors : Nat) (has_name_match : Bool) :
    LinkageDecision × String :=
  if !has_name_match then
    (.no, "Linkage: no - no name match found")
  else
    let non_name_matches := verifications.filter
      (fun v => v.«matches» && !(v.anchor.anchor_type == "name"))
    let match_count := non_name_matches.length
    if !contradictions.isEmpty then
      if match_count ≥ required_anchors + 1 then
        (.maybe, "Linkage: maybe - " ++ toString match_count ++
          " anchors match but conflicts exist: " ++
          String.intercalate "; " (contradictions.take 2))
      else
        (.no, "Linkage: no - conflicts detected: " ++
          String.intercalate "; " (contradictions.take 2))
    else if match_count ≥ required_anchors then
      (.yes, "Linkage: yes - name match + " ++ toString match_count ++ " anchors (" ++
        String.intercalate ", "
          ((non_name_matches.take 3).map (fun v => v.anchor.anchor_type ++ ":" ++ v.anchor.value)) ++
        ")")
    else if match_count > 0 then
      (.maybe, "Linkage: maybe - name match + " ++ toString match_count ++ " anchors (" ++
        String.intercalate ", "
          (non_name_matches.map (fun v => v.anchor.anchor_type ++ ":" ++ v.anchor.value)) ++
        ") below threshold")
    else
      (.no, "Linkage: no - name match only, no supporting anchors")

/-! ### Case aggregator (src/compliance_agent.py, _make_overall_decision).
Python float arithmetic is modelled by exact rationals; the claims
settled here (integer range bounds, the empty-input branch) do not
depend on binary rounding of the 1.2 factor. -/

/-- Outcome-severity multiplier (the `article_score *=` chain; skipping
a conditional multiplication equals multiplying by 1). -/
def outcome_mult (a : ArticleAnalysis) : ℚ :=
  if a.outcome_type == .convicted || a.outcome_type == .regulator_order then 3
  else if a.outcome_type == .charged then 2
  else if a.outcome_type == .investigation then 3/2
  else 1

/-- Linkage-strength multiplier. -/
def linkage_mult (a : ArticleAnalysis) : ℚ :=
  if a.linkage_decision == .yes then 3/2
  else if a.linkage_decision == .maybe then 1
  else 1

/-- Recency multiplier, keyed on substrings of the recency note. -/
def recency_mult (a : ArticleAnalysis) : ℚ :=
  if pyIn "within 12 months" a.recency_note then 3/2
  else if pyIn "12-36 months" a.recency_note then 6/5
  else 1

/-- Per-article score contribution: base 20, multiplied in code order. -/
def article_contribution (a : ArticleAnalysis) : ℚ :=
  ((20 * outcome_mult a) * linkage_mult a) * recency_mult a

/-- The `score += article_score` accumulation over the accepted list. -/
def case_score_sum (accepted : List ArticleAnalysis) : ℚ :=
  accepted.foldl (fun s a => s + article_contribution a) 0

/-- ComplianceAgent._make_overall_decision: (decision, score, rationale). -/
def make_overall_decision (accepted : List ArticleAnalysis) : String × Int × String :=
  if accepted.isEmpty then
    ("clear", 10, "Decision: clear (score 10/100) because no linked adverse media found.")
  else
    let score : Int := min 100 (pyInt (case_score_sum accepted))
    let severe_outcomes := accepted.filter
      (fun a => a.outcome_type == .convicted || a.outcome_type == .regulator_order)
    if !severe_outcomes.isEmpty && severe_outcomes.any (fun a => a.linkage_decision == .yes) then
      ("decline", score, "Decision: decline (score " ++ toString score ++
        "/100) because convicted/regulator order within lookback with yes linkage.")
    else if accepted.any (fun a => a.outcome_type == .charged || a.outcome_type == .investigation) then
      ("escalate", score, "Decision: escalate (score " ++ toString score ++
        "/100) because charged/investigated with linkage.")
    else if score ≥ 60 then
      ("escalate", score, "Decision: escalate (score " ++ toString score ++
        "/100) because multiple adverse findings with linkage.")
    else
      ("clear", score, "Decision: clear (score " ++ toString score ++
        "/100) because only weak allegations or maybe linkage.")

/-! ### Targeted-ask generator (src/compliance_agent.py, _generate_targeted_ask). -/

/-- All contradictions across the accepted articles, concatenated in
article order (the `contradictions.extend` loop). -/
def case_contradictions (accepted : List ArticleAnalysis) : List String :=
  accepted.foldl (fun acc a => acc ++ a.contradictions) []

/-- The missing-anchor list built in the same loop. -/
def case_missing_anchors (accepted : List ArticleAnalysis) : List String :=
  accepted.foldl (fun acc a =>
    let anchor_types := a.anchors.map (fun x => x.anchor_type)
    let acc := if !anchor_types.contains "dob" && !anchor_types.contains "age" then
        acc ++ ["DOB/age verification"] else acc
    if !anchor_types.contains "employer" then
      acc ++ ["employment verification"] else acc) []

/-- The ask produced when the contradiction branch did not return:
first missing anchor if any, else the generic review request. -/
def fallback_ask (accepted : List ArticleAnalysis) : String :=
  match case_missing_anchors accepted with
  | m :: _ => "Request: additional documentation to verify " ++ m ++ "."
  | [] => "Request: manual review of linkage assessment for final confirmation."

/-- ComplianceAgent._generate_targeted_ask. -/
def generate_targeted_ask (accepted : List ArticleAnalysis) : String :=
  let ask_from_contradictions : Option String :=
    match case_contradictions accepted with
    | [] => Option.none
    | primary_contradiction :: _ =>
      if pyIn "dob" (pyLower primary_contradiction) then
        some "Request: government ID to confirm DOB, since article reports conflicting birth date."
      else if pyIn "age" (pyLower primary_contradiction) then
        some "Request: government ID to confirm age, since article reports conflicting age."
      else if pyIn "employer" (pyLower primary_contradiction) then
        some "Request: employment verification to resolve employer contradiction."
      else Option.none
  match ask_from_contradictions with
  | some s => s
  | Option.none => fallback_ask accepted

/-- The decision/targeted-ask slice of process_compliance_check
(steps 16-17): the ask is generated exactly when the decision is
"escalate", otherwise it is None. -/
def decision_and_ask (accepted : List ArticleAnalysis) : String × Option String :=
  let final_decision := (make_overall_decision accepted).1
  (final_decision,
   if final_decision == "escalate" then some (generate_targeted_ask accepted) else Option.none)

/-! ### Memo composer (src/compliance_agent.py, _generate_final_memo).
datetime.now() is passed in as the preformatted string `now`. -/

/-- The memo lines for one linked article (1-based index `i`). -/
def article_memo_lines (i : Nat) (a : ArticleAnalysis) : List String :=
  ["• Article " ++ toString i ++ ": " ++ a.hit.title ++ " (" ++ a.hit.source ++ ", " ++
     a.hit.date ++ ")",
   "  Linkage: " ++ a.linkage_decision.value ++ ", Outcome: " ++ a.outcome_type.value] ++
  (match a.contradictions with
   | c :: _ => ["  Contradictions: " ++ c]
   | [] => [])

/-- ComplianceAgent._generate_final_memo. -/
def generate_final_memo (profile : UserProfile) (accepted : List ArticleAnalysis)
    (final_decision targeted_ask now : String) : String :=
  let dob_line := match profile.date_of_birth with
    | some d => if d == "" then "not provided" else d
    | Option.none => "not provided"
  let header := ["ADVERSE MEDIA REVIEW - " ++ profile.full_name,
    "Subject: " ++ profile.full_name ++ ", DOB: " ++ dob_line,
    "Decision: " ++ pyUpper final_decision, ""]
  let body :=
    if accepted.isEmpty then ["• No linked adverse media found"]
    else "LINKED ARTICLES:" ::
      ((accepted.take 5).enum.map (fun p => article_memo_lines (p.1 + 1) p.2)).flatten
  let next_step :=
    if targeted_ask == "" then "NEXT STEP: Review complete, no further action required."
    else "NEXT STEP: " ++ targeted_ask
  String.intercalate "\n" (header ++ body ++ ["", next_step, "Review completed: " ++ now])

/-! ### Spec-side definitions
These two definitions transcribe the words of the spec/claims (not the
source) and exist only to be compared with the source embedding. -/

/-- The per-article decision rule exactly as the claim states it
(§4.3, evaluated in order), with nonNameMatches = the count of
verifications having matches=true and anchor_type ≠ "name". -/
def spec_linkage_decision (hasNameMatch : Bool) (verifications : List AnchorVerification)
    (contradictions : List String) (requiredAnchorCount : Nat) : LinkageDecision :=
  let nonNameMatches := verifications.countP
    (fun v => v.«matches» && !(v.anchor.anchor_type == "name"))
  if hasNameMatch = false then .no
  else if contradictions ≠ [] then
    if nonNameMatches ≥ requiredAnchorCount + 1 then .maybe else .no
  else if nonNameMatches ≥ requiredAnchorCount then .yes
  else if 0 < nonNameMatches ∧ nonNameMatches < requiredAnchorCount then .maybe
  else .no

/-- The required-anchor count exactly as the claim states it: 2 when
the last whitespace token of full_name, lowercased, is in the fixed
common-surname set, else 1. -/
def spec_required_anchors (full_name : String) : Nat :=
  match (pySplit full_name).getLast? with
  | some t => if COMMON_NAMES.contains (pyLower t) then 2 else 1
  | Option.none => 1

/-! ### Claims -/

/-- C1: for every input (hasNameMatch, verifications, contradictions,
requiredAnchorCount), the decision computed by
DecisionEngine.make_linkage_decision equals the ordered rule of §4.3. -/
theorem linkage_decision_follows_spec_rule (verifications : List AnchorVerification)
    (contradictions : List String) (requiredAnchorCount : Nat) (hasNameMatch : Bool) :
    (make_linkage_decision verifications contradictions requiredAnchorCount hasNameMatch).1 =
      spec_linkage_decision hasNameMatch verifications contradictions requiredAnchorCount := by
  unfold make_linkage_decision spec_linkage_decision
  rw [List.countP_eq_length_filter]
  cases hasNameMatch with
  | false => simp
  | true =>
    simp only [Bool.not_true, if_neg, reduceIte]
    cases contradictions with
    | nil => simp; split_ifs <;> simp_all
    | cons c cs => simp; split_ifs <;> simp_all

lemma outcome_mult_pos (a : ArticleAnalysis) : 0 < outcome_mult a := by
  unfold outcome_mult; split_ifs <;> norm_num

lemma linkage_mult_pos (a : ArticleAnalysis) : 0 < linkage_mult a := by
  unfold linkage_mult; split_ifs <;> norm_num

lemma recency_mult_pos (a : ArticleAnalysis) : 0 < recency_mult a := by
  unfold recency_mult; split_ifs <;> norm_num

lemma article_contribution_nonneg (a : ArticleAnalysis) : 0 ≤ article_contribution a := by
  unfold article_contribution
  have h1 := outcome_mult_pos a
  have h2 := linkage_mult_pos a
  have h3 := recency_mult_pos a
  positivity

lemma case_score_sum_aux (l : List ArticleAnalysis) (s : ℚ) (hs : 0 ≤ s) :
    0 ≤ l.foldl (fun s a => s + article_contribution a) s := by
  induction l generalizing s with
  | nil => simpa
  | cons a t ih =>
    exact ih _ (by simpa using add_nonneg hs (article_contribution_nonneg a))

lemma case_score_sum_nonneg (l : List ArticleAnalysis) : 0 ≤ case_score_sum l :=
  case_score_sum_aux l 0 le_rfl

lemma pyInt_nonneg (q : ℚ) (h : 0 ≤ q) : 0 ≤ pyInt q := by
  unfold pyInt
  rw [if_neg (not_lt.mpr h)]
  exact Int.floor_nonneg.mpr h

lemma overall_decision_score_eq (l : List ArticleAnalysis) (hl : l ≠ []) :
    (make_overall_decision l).2.1 = min 100 (pyInt (case_score_sum l)) := by
  unfold make_overall_decision
  rw [if_neg (by simp [List.isEmpty_iff, hl])]
  dsimp only
  split_ifs <;> rfl

/-- C2: the case aggregator's decision_score is an integer in [0,100]
(sum of per-article contributions, truncated, capped at 100), and the
empty accepted-article list always yields decision "clear" with score
exactly 10 and the no-linked-adverse-media rationale. -/
theorem overall_decision_score_bounds (accepted : List ArticleAnalysis) :
    0 ≤ (make_overall_decision accepted).2.1 ∧
    (make_overall_decision accepted).2.1 ≤ 100 ∧
    (accepted = [] → make_overall_decision accepted =
      ("clear", 10, "Decision: clear (score 10/100) because no linked adverse media found.")) := by
  rcases eq_or_ne accepted [] with h | h
  · subst h
    exact ⟨by norm_num [make_overall_decision], by norm_num [make_overall_decision], fun _ => rfl⟩
  · refine ⟨?_, ?_, fun hc => absurd hc h⟩
    · rw [overall_decision_score_eq accepted h]
      exact le_min (by norm_num) (pyInt_nonneg _ (case_score_sum_nonneg accepted))
    · rw [overall_decision_score_eq accepted h]
      exact min_le_left _ _

/-- Witness for C2 at the concrete empty accepted list. -/
theorem overall_decision_score_bounds_witness :
    make_overall_decision [] =
      ("clear", 10, "Decision: clear (score 10/100) because no linked adverse media found.") :=
  (overall_decision_score_bounds []).2.2 rfl

lemma verify_name_nb (env : PyEnv) (profile : UserProfile) (v : String) :
    ((verify_name env profile v).1 && (verify_name env profile v).2.1) = false := by
  unfold verify_name; dsimp only; split_ifs <;> rfl

lemma verify_employer_nb (profile : UserProfile) (v : String) :
    ((verify_employer profile v).1 && (verify_employer profile v).2.1) = false := by
  unfold verify_employer
  cases profile.employer with
  | none => rfl
  | some emp => dsimp only; split_ifs <;> rfl

lemma verify_city_nb (profile : UserProfile) (v : String) :
    ((verify_city profile v).1 && (verify_city profile v).2.1) = false := by
  unfold verify_city
  cases profile.city with
  | none => rfl
  | some c => dsimp only; split_ifs <;> rfl

lemma verify_dob_nb (env : PyEnv) (profile : UserProfile) (v : String) :
    ((verify_dob env profile v).1 && (verify_dob env profile v).2.1) = false := by
  unfold verify_dob
  cases profile.date_of_birth with
  | none => rfl
  | some dob => dsimp only; split_ifs <;> rfl

lemma verify_age_nb (env : PyEnv) (profile : UserProfile) (v d : String) :
    ((verify_age env profile v d).1 && (verify_age env profile v d).2.1) = false := by
  unfold verify_age
  cases profile.date_of_birth with
  | none => rfl
  | some dob =>
    dsimp only
    split_ifs
    · rfl
    · cases pyParseInt v with
      | none => rfl
      | some n =>
        dsimp only
        cases calculate_age env dob d with
        | none => rfl
        | some e => dsimp only; split_ifs <;> rfl

lemma verify_id_nb (profile : UserProfile) (v : String) :
    ((verify_id profile v).1 && (verify_id profile v).2.1) = false := by
  unfold verify_id
  cases profile.id_data with
  | none => rfl
  | some entries =>
    dsimp only
    split_ifs
    · rfl
    · cases entries.find? (fun e => pyIn v e.2 || pyIn e.2 v) with
      | none => rfl
      | some e => rfl

/-- C3 (amended part): on the rule-based fallback path, no verification
ever has matches=true and conflict=true: every verdict is
corroborating, contradicting, or neutral, for every profile, anchor,
article date and every behaviour of the external date parser and name
normalizer. -/
theorem fallback_verdict_never_both (env : PyEnv) (profile : UserProfile)
    (anchor : IdentityAnchor) (article_date : String) :
    ((rule_verify_anchor env profile anchor article_date).«matches» &&
     (rule_verify_anchor env profile anchor article_date).conflict) = false := by
  unfold rule_verify_anchor
  dsimp only
  split_ifs
  · exact verify_name_nb env profile (pyStrip anchor.value)
  · exact verify_employer_nb profile (pyStrip anchor.value)
  · exact verify_city_nb profile (pyStrip anchor.value)
  · exact verify_dob_nb env profile (pyStrip anchor.value)
  · exact verify_age_nb env profile (pyStrip anchor.value) article_date
  · unfold verify_title; rfl
  · exact verify_id_nb profile (pyStrip anchor.value)
  · rfl

def c3_anchor : IdentityAnchor := ⟨"employer", "Acme", 1, "works at Acme"⟩

def c3_item : BatchItem := ⟨0, true, true, "both asserted", 1/2⟩

/-- C3 counterexample: on the oracle (batch-verification) path the
matches/conflict flags are copied from the oracle response without
validation, so a response asserting both yields an AnchorVerification
with matches=true and conflict=true, refuting the claim for the oracle
path. -/
theorem oracle_verdict_both_flags :
    reassociate [c3_anchor] [c3_item] =
      some [⟨c3_anchor, true, true, "AI: both asserted (confidence: 0.50)"⟩] := by
  have hfloor : ⌊(1/2 : ℚ) * 100 + 1/2⌋ = (50 : ℤ) := by norm_num
  have hf : fmt2 (1/2 : ℚ) = "0.50" := by
    unfold fmt2
    rw [hfloor]
    decide
  simp only [reassociate, c3_anchor, c3_item, ai_rationale, hf, pyGetItem]
  norm_num
  decide

/-- The anchor types handled by the rule-based dispatch. -/
def knownAnchorTypes : List String :=
  ["name", "employer", "city", "dob", "age", "title", "id"]

lemma verify_single_anchor_anchor (env : PyEnv) (ai : Option AIVerdict)
    (profile : UserProfile) (a : IdentityAnchor) (d : String) :
    (verify_single_anchor env ai profile a d).anchor = a := by
  cases ai <;> rfl

/-- C4: the Anchor Verifier's fallback path returns exactly one
AnchorVerification per input anchor, in input order (mapping each
verification to its anchor recovers the input list exactly — no drops,
no duplicates), for every oracle behaviour; and an anchor of unknown
anchor_type receives a neutral verdict (matches=false, conflict=false)
with an explanatory rationale instead of being omitted. -/
theorem fallback_one_verification_per_anchor (env : PyEnv)
    (oracle : IdentityAnchor → Option AIVerdict) (profile : UserProfile)
    (anchors : List IdentityAnchor) (article_date : String) :
    ((verify_anchors_fallback env oracle profile anchors article_date).map
        (fun v => v.anchor) = anchors) ∧
    (∀ a : IdentityAnchor, pyLower a.anchor_type ∉ knownAnchorTypes →
      rule_verify_anchor env profile a article_date =
        ⟨a, false, false, "Unknown anchor type: " ++ pyLower a.anchor_type⟩) := by
  constructor
  · simp [verify_anchors_fallback, List.map_map, Function.comp_def,
      verify_single_anchor_anchor]
  · intro a ha
    obtain ⟨h1, h2, h3, h4, h5, h6, h7⟩ : pyLower a.anchor_type ≠ "name" ∧
        pyLower a.anchor_type ≠ "employer" ∧ pyLower a.anchor_type ≠ "city" ∧
        pyLower a.anchor_type ≠ "dob" ∧ pyLower a.anchor_type ≠ "age" ∧
        pyLower a.anchor_type ≠ "title" ∧ pyLower a.anchor_type ≠ "id" := by
      simpa [knownAnchorTypes] using ha
    simp [rule_verify_anchor, h1, h2, h3, h4, h5, h6, h7]

def w4_env : PyEnv := ⟨fun _ => Option.none, ⟨2024, 1, 1⟩, fun s => s⟩

def w4_profile : UserProfile :=
  ⟨"John Doe", Option.none, Option.none, Option.none, Option.none, []⟩

def w4_anchor : IdentityAnchor := ⟨"passport", "X123", 1, "passport no. X123"⟩

/-- Witness for C4 at a concrete unknown-type anchor. -/
theorem fallback_one_verification_per_anchor_witness :
    rule_verify_anchor w4_env w4_profile w4_anchor "2024-01-01" =
      ⟨w4_anchor, false, false, "Unknown anchor type: passport"⟩ := by
  have h := (fallback_one_verification_per_anchor w4_env (fun _ => Option.none)
    w4_profile [] "2024-01-01").2 w4_anchor (by decide)
  rw [h]
  decide

lemma is_common_name_spec (name : String) (c : Bool)
    (h : is_common_name name = some c) :
    (if c then 2 else 1) = spec_required_anchors name := by
  unfold is_common_name at h
  by_cases hname : name = ""
  · subst hname
    rw [if_pos (by decide)] at h
    injection h with h'
    have hc : c = false := by rw [← h']; decide
    subst hc
    decide
  · rw [if_neg (by simpa using hname)] at h
    cases hl : (pySplit name).getLast? with
    | none => rw [hl] at h; cases h
    | some t =>
      rw [hl] at h
      injection h with h'
      unfold spec_required_anchors
      rw [hl, ← h']

/-- C5: whenever analyze_name_match establishes a name match, the
required anchor count it returns is 2 if the last whitespace token of
full_name, lowercased, is in the common-surname set, and 1 otherwise. -/
theorem required_anchor_count_rule (oracle : NameOracleResult) (profile : UserProfile)
    (anchors : List IdentityAnchor) (s : String) (r : Nat)
    (h : analyze_name_match oracle profile anchors = some (true, s, r)) :
    r = spec_required_anchors profile.full_name := by
  unfold analyze_name_match at h
  dsimp only at h
  split_ifs at h with h1 h2
  · simp at h
  · simp at h
  · cases hc : is_common_name profile.full_name with
    | none => rw [hc] at h; cases h
    | some c =>
      rw [hc] at h
      simp only [Option.some.injEq, Prod.mk.injEq] at h
      obtain ⟨-, -, hr⟩ := h
      rw [← hr]
      simpa [COMMON_NAMES_THRESHOLD, RARE_NAMES_THRESHOLD] using
        is_common_name_spec profile.full_name c hc

def w5_oracle : NameOracleResult := ⟨true, 1, "John Smith", "exact name match"⟩

def w5_profile : UserProfile :=
  ⟨"John Smith", Option.none, Option.none, Option.none, Option.none, []⟩

def w5_anchor : IdentityAnchor := ⟨"name", "John Smith", 1, "John Smith said"⟩

/-- Witness for C5: a matched common-surname profile yields threshold 2. -/
theorem required_anchor_count_rule_witness :
    spec_required_anchors "John Smith" = 2 :=
  (required_anchor_count_rule w5_oracle w5_profile [w5_anchor]
    "common name, needs ≥2 anchors" 2 (by decide)).symm

lemma pyGetItem_eq_getD {α : Type} (l : List α) (i : Int) (d : α)
    (hlt : i < l.length) (hge : 0 ≤ i + l.length) :
    pyGetItem l i =
      some (l.getD (if i < 0 then (i + l.length).toNat else i.toNat) d) := by
  unfold pyGetItem
  by_cases hneg : i < 0
  · rw [if_pos hneg, if_pos hneg]
    dsimp only
    rw [if_neg (not_lt.mpr hge)]
    have hk : (i + l.length).toNat < l.length := by omega
    rw [List.getD_eq_getElem l d hk]
    simp [List.get?_eq_getElem?, List.getElem?_eq_getElem hk]
  · rw [if_neg hneg, if_neg hneg]
    have hk : i.toNat < l.length := by omega
    rw [List.getD_eq_getElem l d hk]
    simp [List.get?_eq_getElem?, List.getElem?_eq_getElem hk]

/-- C6 (amended part): how the batch re-association loop really handles
each returned index: an index ≥ len(anchors) is skipped silently; an
index in [-len, len) is attached to the Python-subscripted anchor
(negative indices counting from the end); an index < -len raises
IndexError, failing the whole batch. -/
theorem reassociate_index_handling (anchors : List IdentityAnchor) (b : BatchItem)
    (rest : List BatchItem) :
    reassociate anchors (b :: rest) =
      if (anchors.length : Int) ≤ b.index then reassociate anchors rest
      else if b.index + anchors.length < 0 then Option.none
      else (reassociate anchors rest).map
        (fun vs => (⟨anchors.getD
              (if b.index < 0 then (b.index + anchors.length).toNat else b.index.toNat)
              default_anchor,
            b.«matches», b.conflict, ai_rationale b.rationale b.confidence⟩ :
          AnchorVerification) :: vs) := by
  conv_lhs => rw [reassociate]
  by_cases hbig : (anchors.length : Int) ≤ b.index
  · rw [if_neg (not_lt.mpr hbig), if_pos hbig]
  · rw [if_pos (not_le.mp hbig), if_neg hbig]
    by_cases hlow : b.index + anchors.length < 0
    · rw [if_pos hlow]
      have : pyGetItem anchors b.index = Option.none := by
        unfold pyGetItem
        rw [if_pos (by omega)]
        dsimp only
        rw [if_pos (by omega)]
      rw [this]
    · rw [if_neg hlow,
        pyGetItem_eq_getD anchors b.index default_anchor (not_le.mp hbig) (not_lt.mp hlow)]

def c6_anchor_a : IdentityAnchor := ⟨"city", "Berlin", 1, "in Berlin"⟩

def c6_anchor_b : IdentityAnchor := ⟨"employer", "Acme", 1, "at Acme"⟩

def c6_item : BatchItem := ⟨-1, true, false, "matches city", 1⟩

/-- C6 counterexample: a batch item with index -1 (outside 0..len-1) is
NOT discarded: with two anchors it is attached to the last anchor,
Python-wrapping the negative subscript. -/
theorem negative_index_not_discarded :
    reassociate [c6_anchor_a, c6_anchor_b] [c6_item] =
      some [⟨c6_anchor_b, true, false, "AI: matches city (confidence: 1.00)"⟩] ∧
    reassociate [c6_anchor_a, c6_anchor_b] [c6_item] ≠ some [] := by
  have hfloor : ⌊(1 : ℚ) * 100 + 1/2⌋ = (100 : ℤ) := by norm_num
  have hf : fmt2 (1 : ℚ) = "1.00" := by
    unfold fmt2
    rw [hfloor]
    decide
  have h1 : reassociate [c6_anchor_a, c6_anchor_b] [c6_item] =
      some [⟨c6_anchor_b, true, false, "AI: matches city (confidence: 1.00)"⟩] := by
    simp only [reassociate, c6_item, ai_rationale, hf, pyGetItem]
    norm_num
    decide
  exact ⟨h1, by rw [h1]; simp⟩

/-- C7 (amended part): the contradiction-keyed ask inspects only the
FIRST contradiction across the accepted articles: the dob/age/employer
priority is applied to that first rationale alone, and if it mentions
none of the keywords the missing-anchor/generic asks apply even when a
later contradiction does. -/
theorem targeted_ask_keyed_on_first_contradiction (accepted : List ArticleAnalysis)
    (c0 : String) (rest : List String)
    (h : case_contradictions accepted = c0 :: rest) :
    generate_targeted_ask accepted =
      if pyIn "dob" (pyLower c0) then
        "Request: government ID to confirm DOB, since article reports conflicting birth date."
      else if pyIn "age" (pyLower c0) then
        "Request: government ID to confirm age, since article reports conflicting age."
      else if pyIn "employer" (pyLower c0) then
        "Request: employment verification to resolve employer contradiction."
      else fallback_ask accepted := by
  unfold generate_targeted_ask
  rw [h]
  dsimp only
  split_ifs <;> rfl

def w7_hit : MediaHit :=
  ⟨"Regulator probes executive", Option.none, Option.none, "2024-05-01", "Reuters",
   Option.none, .adverse_media⟩

def w7_article : ArticleAnalysis :=
  ⟨w7_hit, "probe reported", [], [],
   ["dob: conflict (profile: 1980-01-01 vs article: 1975-05-05)"],
   .maybe, .none, .none, "Credibility: tier-1 outlet", "Recency: within 12 months", "r"⟩

/-- Witness for C7 at a concrete case whose first contradiction
mentions "dob". -/
theorem targeted_ask_keyed_on_first_contradiction_witness :
    generate_targeted_ask [w7_article] =
      "Request: government ID to confirm DOB, since article reports conflicting birth date." := by
  rw [targeted_ask_keyed_on_first_contradiction [w7_article]
    "dob: conflict (profile: 1980-01-01 vs article: 1975-05-05)" [] (by decide)]
  decide

def c7_article : ArticleAnalysis :=
  ⟨w7_hit, "probe reported", [], [],
   ["employer: conflict (profile: Acme vs article: Globex)",
    "dob: conflict (profile: 1980-01-01 vs article: 1975-05-05)"],
   .maybe, .none, .none, "Credibility: tier-1 outlet", "Recency: within 12 months", "r"⟩

/-- C7 counterexample: a contradiction list whose second entry mentions
"dob" but whose first mentions "employer" yields the employment ask,
not the DOB ask the claim requires. -/
theorem dob_contradiction_not_prioritized :
    ((case_contradictions [c7_article]).any (fun c => pyIn "dob" (pyLower c))) = true ∧
    generate_targeted_ask [c7_article] =
      "Request: employment verification to resolve employer contradiction." ∧
    generate_targeted_ask [c7_article] ≠
      "Request: government ID to confirm DOB, since article reports conflicting birth date." := by
  refine ⟨by decide, by decide, by decide⟩

/-- C8: ComplianceResult.targeted_ask is non-null exactly when the
final decision is "escalate": the generator runs precisely then and
always returns one ask string. -/
theorem targeted_ask_iff_escalate (accepted : List ArticleAnalysis) :
    (decision_and_ask accepted).2.isSome ↔ (decision_and_ask accepted).1 = "escalate" := by
  unfold decision_and_ask
  dsimp only
  by_cases h : (make_overall_decision accepted).1 = "escalate"
  · simp [h]
  · simp [h]

/-- C9: the final memo depends on the accepted articles only through
their first five (Python accepted_articles[:5]), which are exactly the
first min(5, n) accepted articles in original input order — a prefix of
the input, never more than 5. -/
theorem final_memo_lists_first_five (profile : UserProfile)
    (accepted : List ArticleAnalysis) (final_decision targeted_ask now : String) :
    generate_final_memo profile accepted final_decision targeted_ask now =
      generate_final_memo profile (accepted.take 5) final_decision targeted_ask now ∧
    accepted.take 5 = accepted.take (min 5 accepted.length) ∧
    (accepted.take 5).length = min 5 accepted.length ∧
    accepted.take 5 <+: accepted := by
  refine ⟨?_, ?_, List.length_take 5 accepted, List.take_prefix 5 accepted⟩
  · have h1 : (accepted.take 5).take 5 = accepted.take 5 := by
      rw [List.take_take]
      norm_num
    have h2 : (accepted.take 5).isEmpty = accepted.isEmpty := by
      cases accepted <;> simp
    unfold generate_final_memo
    rw [h1, h2]
  · rw [List.take_eq_take]
    omega

def c10_profile : UserProfile :=
  ⟨" ", Option.none, Option.none, Option.none, Option.none, []⟩

def c10_oracle : NameOracleResult := ⟨true, 1, "John", "oracle says match"⟩

def c10_anchor : IdentityAnchor := ⟨"name", "John", 1, "John was seen"⟩

/-- C10: a UserProfile whose full_name is non-empty but whitespace-only
makes Config.is_common_name raise IndexError (name.split() is empty and
[-1] is out of bounds), so the name-match threshold step of
analyze_name_match aborts (returns no value) instead of degrading. -/
theorem whitespace_name_raises :
    is_common_name " " = Option.none ∧
    analyze_name_match c10_oracle c10_profile [c10_anchor] = Option.none := by
  decide

end JuniAgent
